import Mathlib

/-!
Verification of the message-dispatch and synchronization layer of the Git Graph
view controller (src/gitGraphView.ts).

The embedding is a shallow one: the dispatch method respondToMessage, the render
algorithm getHtmlForWebview, the visibility-change handler and the repo-set-change
handler are translated into pure Lean functions over an explicit session state.
All external collaborators (the DataSource backend, the extension-state store, the
repo manager, the avatar manager and the utility helpers) are modelled as an oracle
structure of functions supplied to each operation; every call the source performs
on a collaborator either reads the oracle or is recorded as an explicit effect in
an ordered effect trace (messages sent to the webview, watcher mute/unmute/start/
stop, persisted state updates, re-renders). Backend failures are data (ErrorInfo,
null meaning success), matching the error taxonomy of the source.
-/

set_option maxHeartbeats 1600000

namespace GitGraph

/-- Error information returned by every backend operation: a string is a
human-readable failure description, none is the success sentinel (null in the
source). -/
abbrev ErrorInfo := Option String

/-- JavaScript truthiness of a string-or-null value, as tested by statements of
the form if (x) in the source: null and the empty string are falsy, every other
string is truthy. -/
def truthy : ErrorInfo → Bool
  | none => false
  | some s => s != ""

/-- The set of known repositories: an association list from repository root path
to its (here opaque) per-repository metadata, keys unique. The source reads only
Object.keys(repos).length and passes the set through verbatim. -/
abbrev GitRepoSet := List (String × String)

/-- Modelled from the spec: LoadGitGraphViewTo (declared in types.ts, which is
not included in the sources) is an optional record naming the repository the
view should navigate to and an optional commit-details target; the dispatch
layer treats both fields as opaque. -/
structure LoadViewTarget where
  repo : String
  commitDetails : Option String
deriving DecidableEq

/-- Modelled from the spec: GitConfigLocation (declared in types.ts, not
included) enumerates the git configuration scopes; the dispatch layer only ever
names the Local scope explicitly and otherwise passes the value through. -/
inductive GitConfigLocation where
  | Local
  | Global
  | System
deriving DecidableEq

/-- Modelled from the spec: GitPushBranchMode (declared in types.ts, not
included); the dispatch layer names Normal explicitly in the createPullRequest
handler and otherwise passes the value through. -/
inductive GitPushBranchMode where
  | Normal
  | Force
  | ForceWithLease
deriving DecidableEq

/-- Modelled from the spec: the UNCOMMITTED sentinel hash (declared in utils.ts,
not included); the dispatch layer only compares commit hashes against it, so its
exact value is immaterial. -/
def UNCOMMITTED : String := "*"

/-- Modelled from the spec: git config key for the user name (declared in
dataSource.ts, not included). -/
def GIT_CONFIG_USER_NAME : String := "user.name"

/-- Modelled from the spec: git config key for the user email (declared in
dataSource.ts, not included). -/
def GIT_CONFIG_USER_EMAIL : String := "user.email"

/-- Result of DataSource.getRepoInfo: an ErrorInfo plus the remaining payload
(branches, head, remotes, stashes), which the dispatch layer spreads into the
response without inspecting; the payload is therefore kept opaque. -/
structure RepoInfo where
  error : ErrorInfo
  data : String
deriving DecidableEq

/-- The inbound request union (RequestMessage in types.ts, reconstructed from
its use in respondToMessage): one variant per command tag, carrying the fields
the dispatch layer reads. Payload fields the dispatch only passes through are
modelled as strings. -/
inductive RequestMessage where
  | addRemote (repo name url : String) (pushUrl : Option String) (fetch : Bool)
  | addTag (repo tagName commitHash : String) (lightweight : Bool) (message : String) (pushToRemote : Option String)
  | applyStash (repo selector : String) (reinstateIndex : Bool)
  | branchFromStash (repo selector branchName : String)
  | checkoutBranch (repo branchName : String) (remoteBranch : Option String)
  | checkoutCommit (repo commitHash : String)
  | cherrypickCommit (repo commitHash : String) (parentIndex : Nat) (recordOrigin noCommit : Bool)
  | cleanUntrackedFiles (repo : String) (directories : Bool)
  | codeReviewFileReviewed (repo id filePath : String)
  | commitDetails (repo commitHash : String) (hasParents : Bool) (stash : Option String) (avatarEmail : Option String) (refresh : Bool)
  | compareCommits (repo commitHash : String) (compareWithHash : Option String) (fromHash toHash : String) (refresh : Bool)
  | copyFilePath (repo filePath : String)
  | copyToClipboard (type data : String)
  | createArchive (repo ref : String)
  | createBranch (repo branchName commitHash : String) (checkout : Bool)
  | createPullRequest (config : String) (repo sourceOwner sourceRepo sourceBranch sourceRemote : String) (push : Bool)
  | deleteBranch (repo branchName : String) (forceDelete : Bool) (deleteOnRemotes : List String)
  | deleteRemote (repo name : String)
  | deleteRemoteBranch (repo branchName remote : String)
  | deleteTag (repo tagName : String) (deleteOnRemote : Option String)
  | deleteUserDetails (repo : String) (name email : Bool) (location : GitConfigLocation)
  | dropCommit (repo commitHash : String)
  | dropStash (repo selector : String)
  | editRemote (repo nameOld nameNew : String) (urlOld urlNew pushUrlOld pushUrlNew : Option String)
  | editUserDetails (repo name email : String) (location : GitConfigLocation) (deleteLocalName deleteLocalEmail : Bool)
  | fetch (repo : String) (name : Option String) (prune : Bool)
  | fetchAvatar (email repo : String) (remote : Option String) (commits : List String)
  | fetchIntoLocalBranch (repo remote remoteBranch localBranch : String)
  | endCodeReview (repo id : String)
  | getSettings (repo : String)
  | loadCommits (repo : String) (refreshId : Int) (branches : Option (List String)) (maxCommits : Nat) (showTags showRemoteBranches includeCommitsMentionedByReflogs onlyFollowFirstParent : Bool) (remotes hideRemotes stashes : List String)
  | loadRepoInfo (repo : String) (refreshId : Int) (showRemoteBranches : Bool) (hideRemotes : List String)
  | loadRepos (check : Bool)
  | merge (repo obj actionOn : String) (createNewCommit squash noCommit : Bool)
  | openExtensionSettings
  | openFile (repo filePath : String)
  | popStash (repo selector : String) (reinstateIndex : Bool)
  | pruneRemote (repo name : String)
  | pullBranch (repo branchName remote : String) (createNewCommit squash : Bool)
  | pushBranch (repo branchName remote : String) (setUpstream : Bool) (mode : GitPushBranchMode)
  | pushStash (repo message : String) (includeUntracked : Bool)
  | pushTag (repo tagName remote : String)
  | rebase (repo obj actionOn : String) (ignoreDate interactive : Bool)
  | renameBranch (repo oldName newName : String)
  | rescanForRepos
  | resetToCommit (repo commit resetMode : String)
  | revertCommit (repo commitHash : String) (parentIndex : Nat)
  | setGlobalViewState (state : String)
  | setRepoState (repo state : String)
  | showErrorMessage (message : String)
  | startCodeReview (repo id : String) (files : List String) (lastViewedFile : Option String) (commitHash : String) (compareWithHash : Option String)
  | tagDetails (repo tagName commitHash : String)
  | viewDiff (repo fromHash toHash oldFilePath newFilePath type : String)
  | viewFileAtRevision (repo hash filePath : String)
  | viewScm

/-- The outbound response union (ResponseMessage in types.ts, reconstructed from
the sendMessage calls in respondToMessage): one variant per response command
tag, carrying an error field, an errors list, or the command-specific payload. -/
inductive ResponseMessage where
  | addRemote (error : ErrorInfo)
  | addTag (errors : List ErrorInfo)
  | applyStash (error : ErrorInfo)
  | branchFromStash (error : ErrorInfo)
  | checkoutBranch (error : ErrorInfo)
  | checkoutCommit (error : ErrorInfo)
  | cherrypickCommit (errors : List ErrorInfo)
  | cleanUntrackedFiles (error : ErrorInfo)
  | commitDetails (details : String) (avatar : Option String) (codeReview : Option String) (refresh : Bool)
  | compareCommits (commitHash : String) (compareWithHash : Option String) (comparison : String) (codeReview : Option String) (refresh : Bool)
  | copyFilePath (error : ErrorInfo)
  | copyToClipboard (type : String) (error : ErrorInfo)
  | createArchive (error : ErrorInfo)
  | createBranch (error : ErrorInfo)
  | createPullRequest (push : Bool) (errors : List ErrorInfo)
  | deleteBranch (errors : List ErrorInfo)
  | deleteRemote (error : ErrorInfo)
  | deleteRemoteBranch (error : ErrorInfo)
  | deleteTag (error : ErrorInfo)
  | deleteUserDetails (errors : List ErrorInfo)
  | dropCommit (error : ErrorInfo)
  | dropStash (error : ErrorInfo)
  | editRemote (error : ErrorInfo)
  | editUserDetails (errors : List ErrorInfo)
  | fetch (error : ErrorInfo)
  | fetchAvatar (email image : String)
  | fetchIntoLocalBranch (error : ErrorInfo)
  | getSettings (settings : String)
  | loadCommits (refreshId : Int) (onlyFollowFirstParent : Bool) (commits : String)
  | loadRepoInfo (refreshId : Int) (error : ErrorInfo) (data : String) (isRepo : Bool)
  | loadRepos (repos : GitRepoSet) (lastActiveRepo : Option String) (loadViewTo : Option LoadViewTarget)
  | merge (actionOn : String) (error : ErrorInfo)
  | openExtensionSettings (error : ErrorInfo)
  | openFile (error : ErrorInfo)
  | popStash (error : ErrorInfo)
  | pruneRemote (error : ErrorInfo)
  | pullBranch (error : ErrorInfo)
  | pushBranch (error : ErrorInfo)
  | pushStash (error : ErrorInfo)
  | pushTag (error : ErrorInfo)
  | rebase (actionOn : String) (interactive : Bool) (error : ErrorInfo)
  | refresh
  | renameBranch (error : ErrorInfo)
  | resetToCommit (error : ErrorInfo)
  | revertCommit (error : ErrorInfo)
  | setGlobalViewState (error : ErrorInfo)
  | startCodeReview (commitHash : String) (compareWithHash : Option String) (review : String)
  | tagDetails (tagName commitHash : String) (details : String)
  | viewDiff (error : ErrorInfo)
  | viewFileAtRevision (error : ErrorInfo)
  | viewScm (error : ErrorInfo)

/-- The string command discriminator of a request, as carried by the transport. -/
def RequestMessage.command : RequestMessage → String
  | .addRemote .. => "addRemote"
  | .addTag .. => "addTag"
  | .applyStash .. => "applyStash"
  | .branchFromStash .. => "branchFromStash"
  | .checkoutBranch .. => "checkoutBranch"
  | .checkoutCommit .. => "checkoutCommit"
  | .cherrypickCommit .. => "cherrypickCommit"
  | .cleanUntrackedFiles .. => "cleanUntrackedFiles"
  | .codeReviewFileReviewed .. => "codeReviewFileReviewed"
  | .commitDetails .. => "commitDetails"
  | .compareCommits .. => "compareCommits"
  | .copyFilePath .. => "copyFilePath"
  | .copyToClipboard .. => "copyToClipboard"
  | .createArchive .. => "createArchive"
  | .createBranch .. => "createBranch"
  | .createPullRequest .. => "createPullRequest"
  | .deleteBranch .. => "deleteBranch"
  | .deleteRemote .. => "deleteRemote"
  | .deleteRemoteBranch .. => "deleteRemoteBranch"
  | .deleteTag .. => "deleteTag"
  | .deleteUserDetails .. => "deleteUserDetails"
  | .dropCommit .. => "dropCommit"
  | .dropStash .. => "dropStash"
  | .editRemote .. => "editRemote"
  | .editUserDetails .. => "editUserDetails"
  | .fetch .. => "fetch"
  | .fetchAvatar .. => "fetchAvatar"
  | .fetchIntoLocalBranch .. => "fetchIntoLocalBranch"
  | .endCodeReview .. => "endCodeReview"
  | .getSettings .. => "getSettings"
  | .loadCommits .. => "loadCommits"
  | .loadRepoInfo .. => "loadRepoInfo"
  | .loadRepos .. => "loadRepos"
  | .merge .. => "merge"
  | .openExtensionSettings => "openExtensionSettings"
  | .openFile .. => "openFile"
  | .popStash .. => "popStash"
  | .pruneRemote .. => "pruneRemote"
  | .pullBranch .. => "pullBranch"
  | .pushBranch .. => "pushBranch"
  | .pushStash .. => "pushStash"
  | .pushTag .. => "pushTag"
  | .rebase .. => "rebase"
  | .renameBranch .. => "renameBranch"
  | .rescanForRepos => "rescanForRepos"
  | .resetToCommit .. => "resetToCommit"
  | .revertCommit .. => "revertCommit"
  | .setGlobalViewState .. => "setGlobalViewState"
  | .setRepoState .. => "setRepoState"
  | .showErrorMessage .. => "showErrorMessage"
  | .startCodeReview .. => "startCodeReview"
  | .tagDetails .. => "tagDetails"
  | .viewDiff .. => "viewDiff"
  | .viewFileAtRevision .. => "viewFileAtRevision"
  | .viewScm => "viewScm"

/-- The string command discriminator of a response. -/
def ResponseMessage.command : ResponseMessage → String
  | .addRemote .. => "addRemote"
  | .addTag .. => "addTag"
  | .applyStash .. => "applyStash"
  | .branchFromStash .. => "branchFromStash"
  | .checkoutBranch .. => "checkoutBranch"
  | .checkoutCommit .. => "checkoutCommit"
  | .cherrypickCommit .. => "cherrypickCommit"
  | .cleanUntrackedFiles .. => "cleanUntrackedFiles"
  | .commitDetails .. => "commitDetails"
  | .compareCommits .. => "compareCommits"
  | .copyFilePath .. => "copyFilePath"
  | .copyToClipboard .. => "copyToClipboard"
  | .createArchive .. => "createArchive"
  | .createBranch .. => "createBranch"
  | .createPullRequest .. => "createPullRequest"
  | .deleteBranch .. => "deleteBranch"
  | .deleteRemote .. => "deleteRemote"
  | .deleteRemoteBranch .. => "deleteRemoteBranch"
  | .deleteTag .. => "deleteTag"
  | .deleteUserDetails .. => "deleteUserDetails"
  | .dropCommit .. => "dropCommit"
  | .dropStash .. => "dropStash"
  | .editRemote .. => "editRemote"
  | .editUserDetails .. => "editUserDetails"
  | .fetch .. => "fetch"
  | .fetchAvatar .. => "fetchAvatar"
  | .fetchIntoLocalBranch .. => "fetchIntoLocalBranch"
  | .getSettings .. => "getSettings"
  | .loadCommits .. => "loadCommits"
  | .loadRepoInfo .. => "loadRepoInfo"
  | .loadRepos .. => "loadRepos"
  | .merge .. => "merge"
  | .openExtensionSettings .. => "openExtensionSettings"
  | .openFile .. => "openFile"
  | .popStash .. => "popStash"
  | .pruneRemote .. => "pruneRemote"
  | .pullBranch .. => "pullBranch"
  | .pushBranch .. => "pushBranch"
  | .pushStash .. => "pushStash"
  | .pushTag .. => "pushTag"
  | .rebase .. => "rebase"
  | .refresh => "refresh"
  | .renameBranch .. => "renameBranch"
  | .resetToCommit .. => "resetToCommit"
  | .revertCommit .. => "revertCommit"
  | .setGlobalViewState .. => "setGlobalViewState"
  | .startCodeReview .. => "startCodeReview"
  | .tagDetails .. => "tagDetails"
  | .viewDiff .. => "viewDiff"
  | .viewFileAtRevision .. => "viewFileAtRevision"
  | .viewScm .. => "viewScm"

/-- The refreshId carried by a response, for the two refresh-sensitive query
classes; none for every other response. -/
def ResponseMessage.refreshIdOf : ResponseMessage → Option Int
  | .loadCommits refreshId _ _ => some refreshId
  | .loadRepoInfo refreshId _ _ _ => some refreshId
  | _ => none

/-- The mutable session state of the GitGraphView instance (its private fields,
as initialised at construction and mutated by the handlers). -/
structure ViewState where
  isGraphViewLoaded : Bool
  isPanelVisible : Bool
  currentRepo : Option String
  loadViewTo : Option LoadViewTarget
  loadRepoInfoRefreshId : Int
  loadCommitsRefreshId : Int
deriving DecidableEq

/-- The field initialisers of the GitGraphView class (isGraphViewLoaded false,
isPanelVisible true, currentRepo null, loadViewTo null, both refresh ids 0). -/
def initialViewState : ViewState :=
  { isGraphViewLoaded := false
    isPanelVisible := true
    currentRepo := none
    loadViewTo := none
    loadRepoInfoRefreshId := 0
    loadCommitsRefreshId := 0 }

/-- Which of the three bodies getHtmlForWebview emits: the fixed
git-executable-unavailable error surface, the interactive shell, or the
no-repositories error surface. -/
inductive BodyKind where
  | unableToFindGit
  | main
  | noRepos
deriving DecidableEq

/-- The observable outcome of one execution of getHtmlForWebview: which body was
chosen and the GitGraphViewInitialState snapshot computed for it (the fields the
dispatch layer controls; the pure configuration block is omitted as opaque). -/
structure RenderResult where
  bodyKind : BodyKind
  lastActiveRepo : Option String
  loadViewTo : Option LoadViewTarget
  repos : GitRepoSet
  loadRepoInfoRefreshId : Int
  loadCommitsRefreshId : Int
deriving DecidableEq

/-- The ordered trace of side effects one handler execution performs on its
collaborators: webview messages, watcher transitions, persisted state updates,
fire-and-forget collaborator calls and full re-renders. -/
inductive Effect where
  | muteWatcher
  | unmuteWatcher
  | send (msg : ResponseMessage)
  | updateCodeReviewFileReviewed (repo id filePath : String)
  | endCodeReview (repo id : String)
  | fetchAvatarImage (email repo : String) (remote : Option String) (commits : List String)
  | setRepoState (repo state : String)
  | showErrorMessage (message : String)
  | setLastActiveRepo (repo : String)
  | startWatcher (repo : String)
  | stopWatcher
  | rescanWorkspace
  | rerender (result : RenderResult)

/-- The external collaborators of the view (DataSource, ExtensionState,
RepoManager, AvatarManager and the utility helpers), modelled as an oracle of
pure functions: each field corresponds to one async method the dispatch layer
awaits, taking the arguments the source passes and returning the value the
source destructures. -/
structure Backend where
  addRemote : String → String → String → Option String → Bool → ErrorInfo
  addTag : String → String → String → Bool → String → ErrorInfo
  applyStash : String → String → Bool → ErrorInfo
  branchFromStash : String → String → String → ErrorInfo
  checkoutBranch : String → String → Option String → ErrorInfo
  checkoutCommit : String → String → ErrorInfo
  cherrypickCommit : String → String → Nat → Bool → Bool → ErrorInfo
  cleanUntrackedFiles : String → Bool → ErrorInfo
  createBranch : String → String → String → Bool → ErrorInfo
  deleteBranch : String → String → Bool → ErrorInfo
  deleteRemote : String → String → ErrorInfo
  deleteRemoteBranch : String → String → String → ErrorInfo
  deleteTag : String → String → Option String → ErrorInfo
  dropCommit : String → String → ErrorInfo
  dropStash : String → String → ErrorInfo
  editRemote : String → String → String → Option String → Option String → Option String → Option String → ErrorInfo
  fetch : String → Option String → Bool → ErrorInfo
  fetchIntoLocalBranch : String → String → String → String → ErrorInfo
  getCommitComparison : String → String → String → String
  getCommitDetails : String → String → Bool → String
  getCommits : String → Option (List String) → Nat → Bool → Bool → Bool → Bool → List String → List String → List String → String
  getRepoInfo : String → Bool → List String → RepoInfo
  getRepoSettings : String → String
  getStashDetails : String → String → String → String
  getTagDetails : String → String → String
  getUncommittedDetails : String → String
  merge : String → String → String → Bool → Bool → Bool → ErrorInfo
  popStash : String → String → Bool → ErrorInfo
  pruneRemote : String → String → ErrorInfo
  pullBranch : String → String → String → Bool → Bool → ErrorInfo
  pushBranch : String → String → String → Bool → GitPushBranchMode → ErrorInfo
  pushStash : String → String → Bool → ErrorInfo
  pushTag : String → String → String → ErrorInfo
  rebase : String → String → String → Bool → Bool → ErrorInfo
  renameBranch : String → String → String → ErrorInfo
  repoRoot : String → Option String
  resetToCommit : String → String → String → ErrorInfo
  revertCommit : String → String → Nat → ErrorInfo
  setConfigValue : String → String → String → GitConfigLocation → ErrorInfo
  unsetConfigValue : String → String → GitConfigLocation → ErrorInfo
  isGitExecutableUnknown : Bool
  getCodeReview : String → String → Option String
  getGlobalViewState : String
  getLastActiveRepo : Option String
  isAvatarStorageAvailable : Bool
  setGlobalViewState : String → ErrorInfo
  startCodeReview : String → String → List String → Option String → String
  checkReposExist : Bool
  getRepos : GitRepoSet
  searchWorkspaceForRepos : Bool
  getAvatarImage : String → Option String
  archive : String → String → ErrorInfo
  copyFilePathToClipboard : String → String → ErrorInfo
  copyToClipboard : String → ErrorInfo
  createPullRequest : String → String → String → String → ErrorInfo
  openExtensionSettings : ErrorInfo
  openFile : String → String → ErrorInfo
  viewDiff : String → String → String → String → String → String → ErrorInfo
  viewFileAtRevision : String → String → String → ErrorInfo
  viewScm : ErrorInfo

/-- The response messages contained in an effect trace, in order. -/
def sentMessages (effects : List Effect) : List ResponseMessage :=
  effects.filterMap fun e =>
    match e with
    | .send m => some m
    | _ => none

/-- The respondLoadRepos helper: sends the known repositories, the last active
repository from the extension state, and the navigation target. -/
def respondLoadRepos (b : Backend) (repos : GitRepoSet) (loadViewTo : Option LoadViewTarget) : Effect :=
  Effect.send (ResponseMessage.loadRepos repos b.getLastActiveRepo loadViewTo)

/-- The body of the switch statement of respondToMessage: given the oracle, the
current session state and the request, returns the updated session state and the
ordered effect trace of the selected case (without the surrounding watcher
mute and unmute performed by the dispatch itself). -/
def handleMessage (b : Backend) (s : ViewState) (msg : RequestMessage) : ViewState × List Effect :=
  match msg with
  | .addRemote repo name url pushUrl fetch =>
      (s, [Effect.send (ResponseMessage.addRemote (b.addRemote repo name url pushUrl fetch))])
  | .addTag repo tagName commitHash lightweight message pushToRemote =>
      let first := b.addTag repo tagName commitHash lightweight message
      let errorInfos :=
        if first = none then
          match pushToRemote with
          | some remote => [first, b.pushTag repo tagName remote]
          | none => [first]
        else [first]
      (s, [Effect.send (ResponseMessage.addTag errorInfos)])
  | .applyStash repo selector reinstateIndex =>
      (s, [Effect.send (ResponseMessage.applyStash (b.applyStash repo selector reinstateIndex))])
  | .branchFromStash repo selector branchName =>
      (s, [Effect.send (ResponseMessage.branchFromStash (b.branchFromStash repo selector branchName))])
  | .checkoutBranch repo branchName remoteBranch =>
      (s, [Effect.send (ResponseMessage.checkoutBranch (b.checkoutBranch repo branchName remoteBranch))])
  | .checkoutCommit repo commitHash =>
      (s, [Effect.send (ResponseMessage.checkoutCommit (b.checkoutCommit repo commitHash))])
  | .cherrypickCommit repo commitHash parentIndex recordOrigin noCommit =>
      let first := b.cherrypickCommit repo commitHash parentIndex recordOrigin noCommit
      let errorInfos :=
        if first = none ∧ noCommit = true then [first, b.viewScm] else [first]
      (s, [Effect.send (ResponseMessage.cherrypickCommit errorInfos)])
  | .cleanUntrackedFiles repo directories =>
      (s, [Effect.send (ResponseMessage.cleanUntrackedFiles (b.cleanUntrackedFiles repo directories))])
  | .codeReviewFileReviewed repo id filePath =>
      (s, [Effect.updateCodeReviewFileReviewed repo id filePath])
  | .commitDetails repo commitHash hasParents stash avatarEmail refresh =>
      let details :=
        if commitHash = UNCOMMITTED then b.getUncommittedDetails repo
        else
          match stash with
          | none => b.getCommitDetails repo commitHash hasParents
          | some st => b.getStashDetails repo commitHash st
      let avatar :=
        match avatarEmail with
        | some email => b.getAvatarImage email
        | none => none
      let codeReview := if commitHash ≠ UNCOMMITTED then b.getCodeReview repo commitHash else none
      (s, [Effect.send (ResponseMessage.commitDetails details avatar codeReview refresh)])
  | .compareCommits repo commitHash compareWithHash fromHash toHash refresh =>
      let comparison := b.getCommitComparison repo fromHash toHash
      let codeReview :=
        if toHash ≠ UNCOMMITTED then b.getCodeReview repo (fromHash ++ "-" ++ toHash) else none
      (s, [Effect.send (ResponseMessage.compareCommits commitHash compareWithHash comparison codeReview refresh)])
  | .copyFilePath repo filePath =>
      (s, [Effect.send (ResponseMessage.copyFilePath (b.copyFilePathToClipboard repo filePath))])
  | .copyToClipboard type data =>
      (s, [Effect.send (ResponseMessage.copyToClipboard type (b.copyToClipboard data))])
  | .createArchive repo ref =>
      (s, [Effect.send (ResponseMessage.createArchive (b.archive repo ref))])
  | .createBranch repo branchName commitHash checkout =>
      (s, [Effect.send (ResponseMessage.createBranch (b.createBranch repo branchName commitHash checkout))])
  | .createPullRequest config repo sourceOwner sourceRepo sourceBranch sourceRemote push =>
      let first :=
        if push then b.pushBranch repo sourceBranch sourceRemote true GitPushBranchMode.Normal else none
      let errorInfos :=
        if first = none then [first, b.createPullRequest config sourceOwner sourceRepo sourceBranch]
        else [first]
      (s, [Effect.send (ResponseMessage.createPullRequest push errorInfos)])
  | .deleteBranch repo branchName forceDelete deleteOnRemotes =>
      let errorInfos :=
        b.deleteBranch repo branchName forceDelete ::
          deleteOnRemotes.map fun remote => b.deleteRemoteBranch repo branchName remote
      (s, [Effect.send (ResponseMessage.deleteBranch errorInfos)])
  | .deleteRemote repo name =>
      (s, [Effect.send (ResponseMessage.deleteRemote (b.deleteRemote repo name))])
  | .deleteRemoteBranch repo branchName remote =>
      (s, [Effect.send (ResponseMessage.deleteRemoteBranch (b.deleteRemoteBranch repo branchName remote))])
  | .deleteTag repo tagName deleteOnRemote =>
      (s, [Effect.send (ResponseMessage.deleteTag (b.deleteTag repo tagName deleteOnRemote))])
  | .deleteUserDetails repo name email location =>
      let errorInfos :=
        (if name then [b.unsetConfigValue repo GIT_CONFIG_USER_NAME location] else []) ++
          (if email then [b.unsetConfigValue repo GIT_CONFIG_USER_EMAIL location] else [])
      (s, [Effect.send (ResponseMessage.deleteUserDetails errorInfos)])
  | .dropCommit repo commitHash =>
      (s, [Effect.send (ResponseMessage.dropCommit (b.dropCommit repo commitHash))])
  | .dropStash repo selector =>
      (s, [Effect.send (ResponseMessage.dropStash (b.dropStash repo selector))])
  | .editRemote repo nameOld nameNew urlOld urlNew pushUrlOld pushUrlNew =>
      (s, [Effect.send (ResponseMessage.editRemote (b.editRemote repo nameOld nameNew urlOld urlNew pushUrlOld pushUrlNew))])
  | .editUserDetails repo name email location deleteLocalName deleteLocalEmail =>
      let first := b.setConfigValue repo GIT_CONFIG_USER_NAME name location
      let second := b.setConfigValue repo GIT_CONFIG_USER_EMAIL email location
      let errorInfos :=
        if first = none ∧ second = none then
          [first, second] ++
            (if deleteLocalName then [b.unsetConfigValue repo GIT_CONFIG_USER_NAME GitConfigLocation.Local] else []) ++
            (if deleteLocalEmail then [b.unsetConfigValue repo GIT_CONFIG_USER_EMAIL GitConfigLocation.Local] else [])
        else [first, second]
      (s, [Effect.send (ResponseMessage.editUserDetails errorInfos)])
  | .fetch repo name prune =>
      (s, [Effect.send (ResponseMessage.fetch (b.fetch repo name prune))])
  | .fetchAvatar email repo remote commits =>
      (s, [Effect.fetchAvatarImage email repo remote commits])
  | .fetchIntoLocalBranch repo remote remoteBranch localBranch =>
      (s, [Effect.send (ResponseMessage.fetchIntoLocalBranch (b.fetchIntoLocalBranch repo remote remoteBranch localBranch))])
  | .endCodeReview repo id =>
      (s, [Effect.endCodeReview repo id])
  | .getSettings repo =>
      (s, [Effect.send (ResponseMessage.getSettings (b.getRepoSettings repo))])
  | .loadCommits repo refreshId branches maxCommits showTags showRemoteBranches includeCommitsMentionedByReflogs onlyFollowFirstParent remotes hideRemotes stashes =>
      ({ s with loadCommitsRefreshId := refreshId },
        [Effect.send (ResponseMessage.loadCommits refreshId onlyFollowFirstParent
          (b.getCommits repo branches maxCommits showTags showRemoteBranches includeCommitsMentionedByReflogs onlyFollowFirstParent remotes hideRemotes stashes))])
  | .loadRepoInfo repo refreshId showRemoteBranches hideRemotes =>
      let s1 := { s with loadRepoInfoRefreshId := refreshId }
      let repoInfo := b.getRepoInfo repo showRemoteBranches hideRemotes
      let reclassified : RepoInfo × Bool :=
        if truthy repoInfo.error then
          if (b.repoRoot repo).isSome then (repoInfo, true)
          else ({ repoInfo with error := none }, false)
        else (repoInfo, true)
      let sendResponse :=
        Effect.send (ResponseMessage.loadRepoInfo refreshId reclassified.1.error reclassified.1.data reclassified.2)
      if s1.currentRepo ≠ some repo then
        ({ s1 with currentRepo := some repo },
          [sendResponse, Effect.setLastActiveRepo repo, Effect.startWatcher repo])
      else (s1, [sendResponse])
  | .loadRepos check =>
      if ¬check ∨ ¬b.checkReposExist then
        (s, [respondLoadRepos b b.getRepos none])
      else (s, [])
  | .merge repo obj actionOn createNewCommit squash noCommit =>
      (s, [Effect.send (ResponseMessage.merge actionOn (b.merge repo obj actionOn createNewCommit squash noCommit))])
  | .openExtensionSettings =>
      (s, [Effect.send (ResponseMessage.openExtensionSettings b.openExtensionSettings)])
  | .openFile repo filePath =>
      (s, [Effect.send (ResponseMessage.openFile (b.openFile repo filePath))])
  | .popStash repo selector reinstateIndex =>
      (s, [Effect.send (ResponseMessage.popStash (b.popStash repo selector reinstateIndex))])
  | .pruneRemote repo name =>
      (s, [Effect.send (ResponseMessage.pruneRemote (b.pruneRemote repo name))])
  | .pullBranch repo branchName remote createNewCommit squash =>
      (s, [Effect.send (ResponseMessage.pullBranch (b.pullBranch repo branchName remote createNewCommit squash))])
  | .pushBranch repo branchName remote setUpstream mode =>
      (s, [Effect.send (ResponseMessage.pushBranch (b.pushBranch repo branchName remote setUpstream mode))])
  | .pushStash repo message includeUntracked =>
      (s, [Effect.send (ResponseMessage.pushStash (b.pushStash repo message includeUntracked))])
  | .pushTag repo tagName remote =>
      (s, [Effect.send (ResponseMessage.pushTag (b.pushTag repo tagName remote))])
  | .rebase repo obj actionOn ignoreDate interactive =>
      (s, [Effect.send (ResponseMessage.rebase actionOn interactive (b.rebase repo obj actionOn ignoreDate interactive))])
  | .renameBranch repo oldName newName =>
      (s, [Effect.send (ResponseMessage.renameBranch (b.renameBranch repo oldName newName))])
  | .rescanForRepos =>
      (s, Effect.rescanWorkspace ::
        (if b.searchWorkspaceForRepos then []
         else [Effect.showErrorMessage "No Git repositories were found in the current workspace."]))
  | .resetToCommit repo commit resetMode =>
      (s, [Effect.send (ResponseMessage.resetToCommit (b.resetToCommit repo commit resetMode))])
  | .revertCommit repo commitHash parentIndex =>
      (s, [Effect.send (ResponseMessage.revertCommit (b.revertCommit repo commitHash parentIndex))])
  | .setGlobalViewState state =>
      (s, [Effect.send (ResponseMessage.setGlobalViewState (b.setGlobalViewState state))])
  | .setRepoState repo state =>
      (s, [Effect.setRepoState repo state])
  | .showErrorMessage message =>
      (s, [Effect.showErrorMessage message])
  | .startCodeReview repo id files lastViewedFile commitHash compareWithHash =>
      (s, [Effect.send (ResponseMessage.startCodeReview commitHash compareWithHash (b.startCodeReview repo id files lastViewedFile))])
  | .tagDetails repo tagName commitHash =>
      (s, [Effect.send (ResponseMessage.tagDetails tagName commitHash (b.getTagDetails repo tagName))])
  | .viewDiff repo fromHash toHash oldFilePath newFilePath type =>
      (s, [Effect.send (ResponseMessage.viewDiff (b.viewDiff repo fromHash toHash oldFilePath newFilePath type))])
  | .viewFileAtRevision repo hash filePath =>
      (s, [Effect.send (ResponseMessage.viewFileAtRevision (b.viewFileAtRevision repo hash filePath))])
  | .viewScm =>
      (s, [Effect.send (ResponseMessage.viewScm b.viewScm)])

/-- The respondToMessage dispatch method: mutes the repo file watcher, runs the
switch on the command tag, and unmutes the watcher. -/
def respondToMessage (b : Backend) (s : ViewState) (msg : RequestMessage) : ViewState × List Effect :=
  let handled := handleMessage b s msg
  (handled.1, Effect.muteWatcher :: handled.2 ++ [Effect.unmuteWatcher])

/-- The getHtmlForWebview render algorithm, reduced to its observable outcome:
it snapshots the initial state (last active repository, pending navigation
target, repo set, the two latest refresh ids), chooses among the three bodies
(the git-unavailable check takes precedence, then the non-empty repo set check),
then sets isGraphViewLoaded to whether the repo set is non-empty and clears the
pending navigation target, both unconditionally. -/
def getHtmlForWebview (b : Backend) (s : ViewState) : RenderResult × ViewState :=
  let numRepos := b.getRepos.length
  let bodyKind :=
    if b.isGitExecutableUnknown then BodyKind.unableToFindGit
    else if 0 < numRepos then BodyKind.main
    else BodyKind.noRepos
  ({ bodyKind := bodyKind
     lastActiveRepo := b.getLastActiveRepo
     loadViewTo := s.loadViewTo
     repos := b.getRepos
     loadRepoInfoRefreshId := s.loadRepoInfoRefreshId
     loadCommitsRefreshId := s.loadCommitsRefreshId },
   { s with isGraphViewLoaded := decide (0 < numRepos), loadViewTo := none })

/-- The onDidChangeViewState callback: when the reported visibility differs from
the recorded one, either re-render fully (became visible) or clear the current
repository and stop the watcher (became hidden), then record the new visibility;
when the visibility is unchanged, do nothing. -/
def onDidChangeViewState (b : Backend) (s : ViewState) (visible : Bool) : ViewState × List Effect :=
  if visible ≠ s.isPanelVisible then
    if visible then
      let rendered := getHtmlForWebview b s
      ({ rendered.2 with isPanelVisible := visible }, [Effect.rerender rendered.1])
    else
      ({ s with currentRepo := none, isPanelVisible := visible }, [Effect.stopWatcher])
  else (s, [])

/-- The payload of a repo-set add/remove event from the RepoManager. -/
structure RepoChangeEvent where
  repos : GitRepoSet
  numRepos : Nat
  loadRepo : Option String
deriving DecidableEq

/-- The onDidChangeRepos callback: ignored while hidden; a transition across the
empty/non-empty boundary (judged by the event repo count against the recorded
isGraphViewLoaded flag) stores the navigation target and re-renders fully, any
other transition pushes an incremental loadRepos message carrying the target. -/
def onDidChangeRepos (b : Backend) (s : ViewState) (event : RepoChangeEvent) : ViewState × List Effect :=
  if ¬s.isPanelVisible then (s, [])
  else
    let loadViewTo :=
      match event.loadRepo with
      | some repo => some { repo := repo, commitDetails := none }
      | none => none
    if (event.numRepos = 0 ∧ s.isGraphViewLoaded) ∨ (0 < event.numRepos ∧ ¬s.isGraphViewLoaded) then
      let rendered := getHtmlForWebview b { s with loadViewTo := loadViewTo }
      (rendered.2, [Effect.rerender rendered.1])
    else
      (s, [respondLoadRepos b event.repos loadViewTo])

/-- A concrete oracle on which every backend operation succeeds, used to
instantiate the universally quantified theorems at evaluable inputs. -/
def okBackend : Backend :=
  { addRemote := fun _ _ _ _ _ => none
    addTag := fun _ _ _ _ _ => none
    applyStash := fun _ _ _ => none
    branchFromStash := fun _ _ _ => none
    checkoutBranch := fun _ _ _ => none
    checkoutCommit := fun _ _ => none
    cherrypickCommit := fun _ _ _ _ _ => none
    cleanUntrackedFiles := fun _ _ => none
    createBranch := fun _ _ _ _ => none
    deleteBranch := fun _ _ _ => none
    deleteRemote := fun _ _ => none
    deleteRemoteBranch := fun _ _ _ => none
    deleteTag := fun _ _ _ => none
    dropCommit := fun _ _ => none
    dropStash := fun _ _ => none
    editRemote := fun _ _ _ _ _ _ _ => none
    fetch := fun _ _ _ => none
    fetchIntoLocalBranch := fun _ _ _ _ => none
    getCommitComparison := fun _ _ _ => "comparison"
    getCommitDetails := fun _ _ _ => "details"
    getCommits := fun _ _ _ _ _ _ _ _ _ _ => "commits"
    getRepoInfo := fun _ _ _ => { error := none, data := "repo-info" }
    getRepoSettings := fun _ => "settings"
    getStashDetails := fun _ _ _ => "stash-details"
    getTagDetails := fun _ _ => "tag-details"
    getUncommittedDetails := fun _ => "uncommitted-details"
    merge := fun _ _ _ _ _ _ => none
    popStash := fun _ _ _ => none
    pruneRemote := fun _ _ => none
    pullBranch := fun _ _ _ _ _ => none
    pushBranch := fun _ _ _ _ _ => none
    pushStash := fun _ _ _ => none
    pushTag := fun _ _ _ => none
    rebase := fun _ _ _ _ _ => none
    renameBranch := fun _ _ _ => none
    repoRoot := fun repo => some repo
    resetToCommit := fun _ _ _ => none
    revertCommit := fun _ _ _ => none
    setConfigValue := fun _ _ _ _ => none
    unsetConfigValue := fun _ _ _ => none
    isGitExecutableUnknown := false
    getCodeReview := fun _ _ => none
    getGlobalViewState := "global-state"
    getLastActiveRepo := some "last-repo"
    isAvatarStorageAvailable := true
    setGlobalViewState := fun _ => none
    startCodeReview := fun _ _ _ _ => "review"
    checkReposExist := false
    getRepos := [("repo-a", "cfg-a")]
    searchWorkspaceForRepos := true
    getAvatarImage := fun _ => none
    archive := fun _ _ => none
    copyFilePathToClipboard := fun _ _ => none
    copyToClipboard := fun _ => none
    createPullRequest := fun _ _ _ _ => none
    openExtensionSettings := none
    openFile := fun _ _ => none
    viewDiff := fun _ _ _ _ _ _ => none
    viewFileAtRevision := fun _ _ _ => none
    viewScm := none }

/-- The commands whose handlers perform only fire-and-forget collaborator calls
and send no response message through the transport. -/
def noResponseCommands : List String :=
  ["codeReviewFileReviewed", "endCodeReview", "fetchAvatar", "rescanForRepos",
   "setRepoState", "showErrorMessage"]

/-- Whether an effect changes the mute state of the file watcher gate. -/
def Effect.isMuteEvent : Effect → Bool
  | .muteWatcher => true
  | .unmuteWatcher => true
  | _ => false

theorem isMuteEvent_eq_false_iff (e : Effect) :
    e.isMuteEvent = false ↔ e ≠ Effect.muteWatcher ∧ e ≠ Effect.unmuteWatcher := by
  cases e <;> simp [Effect.isMuteEvent]

theorem handleMessage_no_mute_all (b : Backend) (s : ViewState) (msg : RequestMessage) :
    ((handleMessage b s msg).2.all fun e => !e.isMuteEvent) = true := by
  cases msg <;>
    (simp only [handleMessage, respondLoadRepos]
     repeat' split
     all_goals rfl)

theorem handleMessage_no_mute (b : Backend) (s : ViewState) (msg : RequestMessage) :
    ∀ e ∈ (handleMessage b s msg).2, e ≠ Effect.muteWatcher ∧ e ≠ Effect.unmuteWatcher := by
  intro e he
  have h := List.all_eq_true.mp (handleMessage_no_mute_all b s msg) e he
  exact (isMuteEvent_eq_false_iff e).mp (by simpa using h)

/-- Claim C2: for every dispatched request, respondToMessage mutes the file
watcher gate before the selected handler runs and unmutes it after the handler
completes, on every path: the effect trace of any dispatch is exactly one
muteWatcher, then the handler effects (which never touch the mute state), then
one unmuteWatcher. Backend failures are data in this model (the source never
lets a backend error propagate as an exception across the dispatch), so every
exit path of the switch is covered by the case analysis. -/
theorem respondToMessage_mute_unmute_paired (b : Backend) (s : ViewState) (msg : RequestMessage) :
    ∃ mid, (respondToMessage b s msg).2 = Effect.muteWatcher :: mid ++ [Effect.unmuteWatcher] ∧
      ∀ e ∈ mid, e ≠ Effect.muteWatcher ∧ e ≠ Effect.unmuteWatcher :=
  ⟨(handleMessage b s msg).2, rfl, handleMessage_no_mute b s msg⟩

/-- Witness for claim C2, instantiated at a concrete failing pull request: the
trace is the mute, the single response, the unmute. -/
theorem respondToMessage_mute_unmute_paired_witness :
    ∃ mid, (respondToMessage okBackend initialViewState (RequestMessage.pullBranch "repo-a" "main" "origin" false false)).2
        = Effect.muteWatcher :: mid ++ [Effect.unmuteWatcher] ∧
      ∀ e ∈ mid, e ≠ Effect.muteWatcher ∧ e ≠ Effect.unmuteWatcher :=
  respondToMessage_mute_unmute_paired okBackend initialViewState
    (RequestMessage.pullBranch "repo-a" "main" "origin" false false)

/-- Counterexample to claim C1 as stated: the fetchAvatar command is not one of
the two stated exceptions (persisting a code-review file-reviewed flag, that is
codeReviewFileReviewed, and persisting opaque per-repo UI state, that is
setRepoState), yet its dispatch sends no response message at all. -/
theorem dispatch_two_exceptions_counterexample :
    sentMessages (respondToMessage okBackend initialViewState
        (RequestMessage.fetchAvatar "alice" "repo-a" none [])).2 = [] ∧
      RequestMessage.command (RequestMessage.fetchAvatar "alice" "repo-a" none [])
        ∉ ["codeReviewFileReviewed", "setRepoState"] :=
  ⟨rfl, by decide⟩

/-- Claim C1, amended: dispatch sends no response for the six fire-and-forget
commands (codeReviewFileReviewed, endCodeReview, fetchAvatar, rescanForRepos,
setRepoState, showErrorMessage); for loadRepos it sends exactly one response
with the matching tag unless a requested existence check reported changes, in
which case it sends none; for every other command it sends exactly one response
whose command tag equals the command tag of the request. -/
theorem dispatch_response_discipline (b : Backend) (s : ViewState) (msg : RequestMessage) :
    (msg.command ∈ noResponseCommands → sentMessages (respondToMessage b s msg).2 = []) ∧
    (msg.command ∉ noResponseCommands → msg.command ≠ "loadRepos" →
      (sentMessages (respondToMessage b s msg).2).map ResponseMessage.command = [msg.command]) ∧
    (∀ check, msg = RequestMessage.loadRepos check →
      ((check = true ∧ b.checkReposExist = true) → sentMessages (respondToMessage b s msg).2 = []) ∧
      (¬(check = true ∧ b.checkReposExist = true) →
        (sentMessages (respondToMessage b s msg).2).map ResponseMessage.command = ["loadRepos"])) := by
  refine ⟨fun h1 => ?_, fun h2 h3 => ?_, fun check hc => ?_⟩
  · cases msg <;>
      first
        | (simp only [RequestMessage.command] at h1
           exact absurd h1 (by decide))
        | rfl
        | (simp only [respondToMessage, handleMessage, sentMessages]
           split <;> rfl)
  · cases msg <;>
      first
        | (simp only [RequestMessage.command] at h2
           exact absurd (by decide) h2)
        | exact absurd rfl h3
        | rfl
        | (simp only [respondToMessage, handleMessage, sentMessages]
           split <;> rfl)
  · subst hc
    cases check <;> rcases hb : b.checkReposExist <;>
      simp [respondToMessage, handleMessage, sentMessages, respondLoadRepos,
        ResponseMessage.command, hb]

/-- Witness for claim C1: a concrete merge request yields exactly one response
tagged merge, and a concrete loadRepos request with a requested check that
found changes yields no response. -/
theorem dispatch_response_discipline_witness :
    (sentMessages (respondToMessage okBackend initialViewState
        (RequestMessage.merge "repo-a" "feature" "Branch" true false false)).2).map ResponseMessage.command
      = ["merge"] ∧
    sentMessages (respondToMessage { okBackend with checkReposExist := true } initialViewState
        (RequestMessage.loadRepos true)).2 = [] :=
  ⟨(dispatch_response_discipline okBackend initialViewState
      (RequestMessage.merge "repo-a" "feature" "Branch" true false false)).2.1 (by decide) (by decide),
   ((dispatch_response_discipline { okBackend with checkReposExist := true } initialViewState
      (RequestMessage.loadRepos true)).2.2 true rfl).1 (by exact ⟨rfl, rfl⟩)⟩

/-- An oracle on which setting the git user name and the git user email both
fail, with distinct messages per config key. -/
def failSetBackend : Backend :=
  { okBackend with
      setConfigValue := fun _ key _ _ =>
        if key = GIT_CONFIG_USER_NAME then some "name failed" else some "email failed" }

/-- Counterexample to claim C3 as stated: editUserDetails is listed under the
short-circuit policy, but when sub-operation 1 (set name) returns a non-null
error, sub-operation 2 (set email) is still attempted — the response carries its
independently produced error — and the errors list has 2 entries, not 1. -/
theorem shortCircuit_policy_counterexample :
    sentMessages (respondToMessage failSetBackend initialViewState
        (RequestMessage.editUserDetails "repo-a" "alice" "alice.mail" GitConfigLocation.Global true true)).2
      = [ResponseMessage.editUserDetails [some "name failed", some "email failed"]] ∧
    [some "name failed", some "email failed"].length ≠ 1 :=
  ⟨rfl, by decide⟩

/-- Claim C3, amended: for addTag (tag-with-push), cherrypickCommit
(cherry-pick-with-immediate-commit-view) and createPullRequest
(create-pull-request-with-push), if sub-operation k returns a non-null error
then the later sub-operations are never attempted and the returned errors list
has exactly k entries; for editUserDetails the set-name and set-email
sub-operations are both always attempted and always form the first two entries,
and only the optional local-override unsets are short-circuited (they run only
when both sets returned null), so when either set fails the list has exactly the
2 set entries and no unset is attempted. The equations hold for every oracle, so
a branch whose equation does not mention a given backend operation cannot have
attempted it. -/
theorem shortCircuit_policy (b : Backend) (s : ViewState) :
    (∀ repo tagName commitHash lightweight message pushToRemote e,
      b.addTag repo tagName commitHash lightweight message = some e →
      sentMessages (respondToMessage b s
          (RequestMessage.addTag repo tagName commitHash lightweight message pushToRemote)).2
        = [ResponseMessage.addTag [some e]]) ∧
    (∀ repo tagName commitHash lightweight message remote,
      b.addTag repo tagName commitHash lightweight message = none →
      sentMessages (respondToMessage b s
          (RequestMessage.addTag repo tagName commitHash lightweight message (some remote))).2
        = [ResponseMessage.addTag [none, b.pushTag repo tagName remote]]) ∧
    (∀ repo commitHash parentIndex recordOrigin noCommit e,
      b.cherrypickCommit repo commitHash parentIndex recordOrigin noCommit = some e →
      sentMessages (respondToMessage b s
          (RequestMessage.cherrypickCommit repo commitHash parentIndex recordOrigin noCommit)).2
        = [ResponseMessage.cherrypickCommit [some e]]) ∧
    (∀ repo commitHash parentIndex recordOrigin,
      b.cherrypickCommit repo commitHash parentIndex recordOrigin true = none →
      sentMessages (respondToMessage b s
          (RequestMessage.cherrypickCommit repo commitHash parentIndex recordOrigin true)).2
        = [ResponseMessage.cherrypickCommit [none, b.viewScm]]) ∧
    (∀ config repo sourceOwner sourceRepo sourceBranch sourceRemote e,
      b.pushBranch repo sourceBranch sourceRemote true GitPushBranchMode.Normal = some e →
      sentMessages (respondToMessage b s
          (RequestMessage.createPullRequest config repo sourceOwner sourceRepo sourceBranch sourceRemote true)).2
        = [ResponseMessage.createPullRequest true [some e]]) ∧
    (∀ config repo sourceOwner sourceRepo sourceBranch sourceRemote,
      b.pushBranch repo sourceBranch sourceRemote true GitPushBranchMode.Normal = none →
      sentMessages (respondToMessage b s
          (RequestMessage.createPullRequest config repo sourceOwner sourceRepo sourceBranch sourceRemote true)).2
        = [ResponseMessage.createPullRequest true
            [none, b.createPullRequest config sourceOwner sourceRepo sourceBranch]]) ∧
    (∀ repo name email location deleteLocalName deleteLocalEmail,
      (b.setConfigValue repo GIT_CONFIG_USER_NAME name location ≠ none ∨
        b.setConfigValue repo GIT_CONFIG_USER_EMAIL email location ≠ none) →
      sentMessages (respondToMessage b s
          (RequestMessage.editUserDetails repo name email location deleteLocalName deleteLocalEmail)).2
        = [ResponseMessage.editUserDetails
            [b.setConfigValue repo GIT_CONFIG_USER_NAME name location,
             b.setConfigValue repo GIT_CONFIG_USER_EMAIL email location]]) := by
  refine ⟨?_, ?_, ?_, ?_, ?_, ?_, ?_⟩
  · intro repo tagName commitHash lightweight message pushToRemote e h
    simp [respondToMessage, handleMessage, sentMessages, h]
  · intro repo tagName commitHash lightweight message remote h
    simp [respondToMessage, handleMessage, sentMessages, h]
  · intro repo commitHash parentIndex recordOrigin noCommit e h
    simp [respondToMessage, handleMessage, sentMessages, h]
  · intro repo commitHash parentIndex recordOrigin h
    simp [respondToMessage, handleMessage, sentMessages, h]
  · intro config repo sourceOwner sourceRepo sourceBranch sourceRemote e h
    simp [respondToMessage, handleMessage, sentMessages, h]
  · intro config repo sourceOwner sourceRepo sourceBranch sourceRemote h
    simp [respondToMessage, handleMessage, sentMessages, h]
  · intro repo name email location deleteLocalName deleteLocalEmail h
    rcases h with h | h <;>
      simp [respondToMessage, handleMessage, sentMessages, h]

/-- Witness for claim C3: with an oracle on which tag creation fails, a tag-add
request with a requested push returns the single creation error (spec property
9 dual); with the all-success oracle and a failing push oracle the two-entry
case is exercised by the amended conjuncts directly. -/
theorem shortCircuit_policy_witness :
    sentMessages (respondToMessage
        { okBackend with addTag := fun _ _ _ _ _ => some "tag exists" } initialViewState
        (RequestMessage.addTag "repo-a" "v1" "abc" true "" (some "origin"))).2
      = [ResponseMessage.addTag [some "tag exists"]] ∧
    sentMessages (respondToMessage
        { okBackend with pushTag := fun _ _ _ => some "push failure message" } initialViewState
        (RequestMessage.addTag "repo-a" "v1" "abc" true "" (some "origin"))).2
      = [ResponseMessage.addTag [none, some "push failure message"]] :=
  ⟨(shortCircuit_policy { okBackend with addTag := fun _ _ _ _ _ => some "tag exists" }
      initialViewState).1 "repo-a" "v1" "abc" true "" (some "origin") "tag exists" rfl,
   by
    have h := (shortCircuit_policy { okBackend with pushTag := fun _ _ _ => some "push failure message" }
      initialViewState).2.1 "repo-a" "v1" "abc" true "" "origin" rfl
    simpa using h⟩

/-- Claim C4: for the run-all-policy commands, every requested sub-operation is
attempted regardless of earlier outcomes, and the errors list has exactly one
entry per attempt, index-aligned to attempt order: deleteBranch always returns
the local delete outcome followed by one outcome per requested remote deletion
(1 + m entries, first entry the local outcome, remote k at index k), and
deleteUserDetails returns one entry per requested unset in name-then-email
order. The equations hold for every oracle, in particular when the local delete
fails, so the remote deletions are attempted regardless of its outcome. -/
theorem runAll_policy (b : Backend) (s : ViewState) :
    (∀ repo branchName forceDelete deleteOnRemotes,
      sentMessages (respondToMessage b s
          (RequestMessage.deleteBranch repo branchName forceDelete deleteOnRemotes)).2
        = [ResponseMessage.deleteBranch
            (b.deleteBranch repo branchName forceDelete ::
              deleteOnRemotes.map fun remote => b.deleteRemoteBranch repo branchName remote)] ∧
      (b.deleteBranch repo branchName forceDelete ::
          deleteOnRemotes.map fun remote => b.deleteRemoteBranch repo branchName remote).length
        = 1 + deleteOnRemotes.length ∧
      (b.deleteBranch repo branchName forceDelete ::
          deleteOnRemotes.map fun remote => b.deleteRemoteBranch repo branchName remote).head?
        = some (b.deleteBranch repo branchName forceDelete)) ∧
    (∀ repo name email location,
      sentMessages (respondToMessage b s
          (RequestMessage.deleteUserDetails repo name email location)).2
        = [ResponseMessage.deleteUserDetails
            ((if name then [b.unsetConfigValue repo GIT_CONFIG_USER_NAME location] else []) ++
              (if email then [b.unsetConfigValue repo GIT_CONFIG_USER_EMAIL location] else []))]) := by
  constructor
  · intro repo branchName forceDelete deleteOnRemotes
    refine ⟨rfl, ?_, rfl⟩
    simp [Nat.add_comm]
  · intro repo name email location
    rfl

/-- Witness for claim C4, exercising the example of spec property 8: a branch
deleted locally and on two remotes, where the local delete fails, still attempts
both remote deletions and returns 3 error entries, the first non-null and the
remaining two reflecting each remote attempt. -/
theorem runAll_policy_witness :
    sentMessages (respondToMessage
        { okBackend with
            deleteBranch := fun _ _ _ => some "local delete failed"
            deleteRemoteBranch := fun _ _ remote =>
              if remote = "origin" then none else some "remote delete failed" }
        initialViewState
        (RequestMessage.deleteBranch "repo-a" "feature" false ["origin", "upstream"])).2
      = [ResponseMessage.deleteBranch
          [some "local delete failed", none, some "remote delete failed"]] := by
  have h := ((runAll_policy
      { okBackend with
          deleteBranch := fun _ _ _ => some "local delete failed"
          deleteRemoteBranch := fun _ _ remote =>
            if remote = "origin" then none else some "remote delete failed" }
      initialViewState).1 "repo-a" "feature" false ["origin", "upstream"]).1
  simpa using h

/-- Claim C5: a loadRepoInfo response and a loadCommits response always carry
back exactly the refreshId supplied in the request, and the dispatch records
that id as the latest one for the corresponding query class in the session
state it returns. -/
theorem refreshId_echo (b : Backend) (s : ViewState) :
    (∀ repo refreshId branches maxCommits showTags showRemoteBranches
        includeCommitsMentionedByReflogs onlyFollowFirstParent remotes hideRemotes stashes,
      (sentMessages (respondToMessage b s (RequestMessage.loadCommits repo refreshId branches
          maxCommits showTags showRemoteBranches includeCommitsMentionedByReflogs
          onlyFollowFirstParent remotes hideRemotes stashes)).2).map ResponseMessage.refreshIdOf
        = [some refreshId] ∧
      (respondToMessage b s (RequestMessage.loadCommits repo refreshId branches
          maxCommits showTags showRemoteBranches includeCommitsMentionedByReflogs
          onlyFollowFirstParent remotes hideRemotes stashes)).1.loadCommitsRefreshId = refreshId) ∧
    (∀ repo refreshId showRemoteBranches hideRemotes,
      (sentMessages (respondToMessage b s
          (RequestMessage.loadRepoInfo repo refreshId showRemoteBranches hideRemotes)).2).map
            ResponseMessage.refreshIdOf
        = [some refreshId] ∧
      (respondToMessage b s
          (RequestMessage.loadRepoInfo repo refreshId showRemoteBranches hideRemotes)).1.loadRepoInfoRefreshId
        = refreshId) := by
  constructor
  · intro repo refreshId branches maxCommits showTags showRemoteBranches
      includeCommitsMentionedByReflogs onlyFollowFirstParent remotes hideRemotes stashes
    exact ⟨rfl, rfl⟩
  · intro repo refreshId showRemoteBranches hideRemotes
    constructor <;>
      (simp only [respondToMessage, handleMessage, sentMessages]
       repeat' split
       all_goals rfl)

/-- Witness for claim C5: both query classes echo a concrete id 42 and record it
in the session state. -/
theorem refreshId_echo_witness :
    (sentMessages (respondToMessage okBackend initialViewState
        (RequestMessage.loadCommits "repo-a" 42 none 300 true true false false [] [] [])).2).map
          ResponseMessage.refreshIdOf = [some 42] ∧
    (respondToMessage okBackend initialViewState
        (RequestMessage.loadRepoInfo "repo-a" 42 true [])).1.loadRepoInfoRefreshId = 42 :=
  ⟨((refreshId_echo okBackend initialViewState).1 "repo-a" 42 none 300 true true false false [] [] []).1,
   ((refreshId_echo okBackend initialViewState).2 "repo-a" 42 true []).2⟩

/-- An oracle on which the repository info query reports the empty string as its
error (non-null, but falsy under the JavaScript truthiness test the source uses)
while the repository does not exist any more. -/
def emptyErrorBackend : Backend :=
  { okBackend with
      getRepoInfo := fun _ _ _ => { error := some "", data := "repo-info" }
      repoRoot := fun _ => none }

/-- Counterexample to claim C6 as stated: the backend query returns the non-null
error some-empty-string and the repository no longer exists (repoRoot is none),
yet the dispatch never runs the existence probe — the source guards it with the
JavaScript truthiness test if (repoInfo.error), under which the empty string is
falsy — so the response reports the error unchanged (not null) with isRepo true
(not false). -/
theorem loadRepoInfo_reclassification_counterexample :
    emptyErrorBackend.repoRoot "repo-a" = none ∧
    (emptyErrorBackend.getRepoInfo "repo-a" true []).error = some "" ∧
    sentMessages (respondToMessage emptyErrorBackend initialViewState
        (RequestMessage.loadRepoInfo "repo-a" 7 true [])).2
      = [ResponseMessage.loadRepoInfo 7 (some "") "repo-info" true] :=
  ⟨rfl, rfl, rfl⟩

/-- Claim C6, amended: for every loadRepoInfo request whose backend query
returns a truthy error (non-null and non-empty; the source tests the error with
JavaScript truthiness, under which the empty string counts as no error), if the
subsequent repository-existence probe shows the repository no longer exists the
response carries a null error (the original error is suppressed) and isRepo
false; if the repository still exists, the original error is reported unchanged
with isRepo true. -/
theorem loadRepoInfo_error_reclassification (b : Backend) (s : ViewState)
    (repo : String) (refreshId : Int) (showRemoteBranches : Bool) (hideRemotes : List String)
    (e : String) (he : (b.getRepoInfo repo showRemoteBranches hideRemotes).error = some e)
    (hne : e ≠ "") :
    (b.repoRoot repo = none →
      sentMessages (respondToMessage b s
          (RequestMessage.loadRepoInfo repo refreshId showRemoteBranches hideRemotes)).2
        = [ResponseMessage.loadRepoInfo refreshId none
            (b.getRepoInfo repo showRemoteBranches hideRemotes).data false]) ∧
    (∀ root, b.repoRoot repo = some root →
      sentMessages (respondToMessage b s
          (RequestMessage.loadRepoInfo repo refreshId showRemoteBranches hideRemotes)).2
        = [ResponseMessage.loadRepoInfo refreshId (some e)
            (b.getRepoInfo repo showRemoteBranches hideRemotes).data true]) := by
  have htruthy : truthy (b.getRepoInfo repo showRemoteBranches hideRemotes).error = true := by
    rw [he]
    simpa [truthy] using hne
  constructor
  · intro hroot
    simp only [respondToMessage, handleMessage, sentMessages, htruthy, hroot]
    simp [htruthy, hroot]
    split <;> rfl
  · intro root hroot
    simp only [respondToMessage, handleMessage, sentMessages, htruthy, hroot]
    simp [htruthy, hroot, he]
    split <;> rfl

/-- Witness for claim C6: a concrete fatal error with the repository gone is
suppressed and reported as isRepo false, while the same error with the
repository still present is reported unchanged. -/
theorem loadRepoInfo_error_reclassification_witness :
    sentMessages (respondToMessage
        { okBackend with
            getRepoInfo := fun _ _ _ => { error := some "fatal: bad object", data := "d" }
            repoRoot := fun _ => none }
        initialViewState (RequestMessage.loadRepoInfo "repo-a" 9 true [])).2
      = [ResponseMessage.loadRepoInfo 9 none "d" false] ∧
    sentMessages (respondToMessage
        { okBackend with
            getRepoInfo := fun _ _ _ => { error := some "fatal: bad object", data := "d" } }
        initialViewState (RequestMessage.loadRepoInfo "repo-a" 9 true [])).2
      = [ResponseMessage.loadRepoInfo 9 (some "fatal: bad object") "d" true] :=
  ⟨(loadRepoInfo_error_reclassification
      { okBackend with
          getRepoInfo := fun _ _ _ => { error := some "fatal: bad object", data := "d" }
          repoRoot := fun _ => none }
      initialViewState "repo-a" 9 true [] "fatal: bad object" rfl (by decide)).1 rfl,
   (loadRepoInfo_error_reclassification
      { okBackend with
          getRepoInfo := fun _ _ _ => { error := some "fatal: bad object", data := "d" } }
      initialViewState "repo-a" 9 true [] "fatal: bad object" rfl (by decide)).2 "repo-a" rfl⟩

/-- An oracle on which the repository info query fails and the repository no
longer exists at all. -/
def goneRepoBackend : Backend :=
  { okBackend with
      getRepoInfo := fun _ _ _ => { error := some "fatal: not a git repository", data := "d" }
      repoRoot := fun _ => none }

/-- Counterexample to claim C7 as stated: the claim allows a request handler to
update currentRepository only on a successful repository-info load, but the
source updates it whenever the requested repository differs from the current
one, regardless of the outcome — here the load fails outright (backend error
non-null) and the existence probe shows the repository is gone (the response is
isRepo false with the error suppressed), yet currentRepo is still set to the
requested repository, persisted as last-active, and the watcher is started on
it. -/
theorem sessionState_frame_counterexample :
    sentMessages (respondToMessage goneRepoBackend initialViewState
        (RequestMessage.loadRepoInfo "gone" 3 true [])).2
      = [ResponseMessage.loadRepoInfo 3 none "d" false] ∧
    initialViewState.currentRepo = none ∧
    (respondToMessage goneRepoBackend initialViewState
        (RequestMessage.loadRepoInfo "gone" 3 true [])).1.currentRepo = some "gone" ∧
    Effect.setLastActiveRepo "gone" ∈ (respondToMessage goneRepoBackend initialViewState
        (RequestMessage.loadRepoInfo "gone" 3 true [])).2 ∧
    Effect.startWatcher "gone" ∈ (respondToMessage goneRepoBackend initialViewState
        (RequestMessage.loadRepoInfo "gone" 3 true [])).2 :=
  ⟨rfl, rfl, rfl,
   List.Mem.tail _ (List.Mem.tail _ (List.Mem.head _)),
   List.Mem.tail _ (List.Mem.tail _ (List.Mem.tail _ (List.Mem.head _)))⟩

/-- Claim C7, amended: the session state fields isGraphViewLoaded and
isPanelVisible are never mutated by request handlers; currentRepository is
mutated by request handlers only by the loadRepoInfo handler, which updates it
whenever the requested repository differs from the current one — regardless of
whether the load succeeded — along with persisting it as last-active and
restarting the file watcher on it, and leaves it unchanged otherwise. -/
theorem sessionState_frame (b : Backend) (s : ViewState) (msg : RequestMessage) :
    ((respondToMessage b s msg).1.isGraphViewLoaded = s.isGraphViewLoaded) ∧
    ((respondToMessage b s msg).1.isPanelVisible = s.isPanelVisible) ∧
    ((respondToMessage b s msg).1.currentRepo ≠ s.currentRepo → msg.command = "loadRepoInfo") ∧
    (∀ repo refreshId showRemoteBranches hideRemotes,
      msg = RequestMessage.loadRepoInfo repo refreshId showRemoteBranches hideRemotes →
      (s.currentRepo ≠ some repo →
        (respondToMessage b s msg).1.currentRepo = some repo ∧
        Effect.setLastActiveRepo repo ∈ (respondToMessage b s msg).2 ∧
        Effect.startWatcher repo ∈ (respondToMessage b s msg).2) ∧
      (s.currentRepo = some repo → (respondToMessage b s msg).1.currentRepo = s.currentRepo)) := by
  refine ⟨?_, ?_, ?_, ?_⟩
  · cases msg <;>
      first
        | rfl
        | (simp only [respondToMessage, handleMessage]
           repeat' split
           all_goals rfl)
  · cases msg <;>
      first
        | rfl
        | (simp only [respondToMessage, handleMessage]
           repeat' split
           all_goals rfl)
  · cases msg <;>
      first
        | exact fun h => rfl
        | exact fun h => absurd rfl h
        | (intro h
           simp only [respondToMessage, handleMessage] at h
           repeat' split at h
           all_goals first | rfl | exact absurd rfl h)
  · rintro repo refreshId showRemoteBranches hideRemotes rfl
    constructor
    · intro hne
      have hcond : ({ s with loadRepoInfoRefreshId := refreshId } : ViewState).currentRepo ≠ some repo := hne
      refine ⟨?_, ?_, ?_⟩ <;>
        (simp only [respondToMessage, handleMessage]
         rw [if_pos hcond]
         try simp)
    · intro heq
      have hcond : ¬({ s with loadRepoInfoRefreshId := refreshId } : ViewState).currentRepo ≠ some repo := by
        simpa using heq
      simp only [respondToMessage, handleMessage]
      rw [if_neg hcond]

/-- Witness for claim C7: a dispatch that does not touch the session state
fields (merge), and a loadRepoInfo dispatch from a state already watching the
requested repository, which leaves currentRepo unchanged. -/
theorem sessionState_frame_witness :
    (respondToMessage okBackend initialViewState
        (RequestMessage.merge "repo-a" "feature" "Branch" true false false)).1.isGraphViewLoaded
      = initialViewState.isGraphViewLoaded ∧
    (respondToMessage okBackend { initialViewState with currentRepo := some "repo-a" }
        (RequestMessage.loadRepoInfo "repo-a" 4 true [])).1.currentRepo
      = ({ initialViewState with currentRepo := some "repo-a" } : ViewState).currentRepo :=
  ⟨(sessionState_frame okBackend initialViewState
      (RequestMessage.merge "repo-a" "feature" "Branch" true false false)).1,
   (((sessionState_frame okBackend { initialViewState with currentRepo := some "repo-a" }
      (RequestMessage.loadRepoInfo "repo-a" 4 true [])).2.2.2 "repo-a" 4 true [] rfl).2 rfl)⟩

/-- Claim C8: a visibility transition from visible to hidden always stops the
file watcher and clears the current-repository marker, a transition from hidden
to visible always triggers exactly one full re-render, and a visibility
callback whose reported visibility equals the recorded one changes nothing and
performs no effect. -/
theorem visibility_transitions (b : Backend) (s : ViewState) (visible : Bool) :
    (visible = false → s.isPanelVisible = true →
      (onDidChangeViewState b s visible).1.currentRepo = none ∧
      (onDidChangeViewState b s visible).1.isPanelVisible = false ∧
      (onDidChangeViewState b s visible).2 = [Effect.stopWatcher]) ∧
    (visible = true → s.isPanelVisible = false →
      (onDidChangeViewState b s visible).2 = [Effect.rerender (getHtmlForWebview b s).1] ∧
      (onDidChangeViewState b s visible).1
        = { (getHtmlForWebview b s).2 with isPanelVisible := true }) ∧
    (visible = s.isPanelVisible → onDidChangeViewState b s visible = (s, [])) := by
  refine ⟨fun hv hp => ?_, fun hv hp => ?_, fun hv => ?_⟩ <;>
    subst hv <;>
    simp_all [onDidChangeViewState]

/-- Witness for claim C8, at the initial (visible) state: hiding stops the
watcher and clears the marker, and a redundant visible report is a no-op. -/
theorem visibility_transitions_witness :
    ((onDidChangeViewState okBackend initialViewState false).1.currentRepo = none ∧
      (onDidChangeViewState okBackend initialViewState false).1.isPanelVisible = false ∧
      (onDidChangeViewState okBackend initialViewState false).2 = [Effect.stopWatcher]) ∧
    onDidChangeViewState okBackend initialViewState true = (initialViewState, []) :=
  ⟨(visibility_transitions okBackend initialViewState false).1 rfl rfl,
   (visibility_transitions okBackend initialViewState true).2.2 rfl⟩

/-- Claim C9: every execution of the render algorithm embeds the pending
navigation target into the emitted initial state and resets it to null in the
state it returns, so a subsequent render (from that state, under any oracle)
embeds no target: the target is present in at most one render and is never
replayed. -/
theorem loadViewTo_consumed_once (b : Backend) (s : ViewState) :
    (getHtmlForWebview b s).1.loadViewTo = s.loadViewTo ∧
    (getHtmlForWebview b s).2.loadViewTo = none ∧
    ∀ b2 : Backend, (getHtmlForWebview b2 (getHtmlForWebview b s).2).1.loadViewTo = none :=
  ⟨rfl, rfl, fun _ => rfl⟩

/-- Witness for claim C9: rendering with a concrete pending target embeds it and
clears it. -/
theorem loadViewTo_consumed_once_witness :
    (getHtmlForWebview okBackend
        { initialViewState with
            loadViewTo := some { repo := "repo-a", commitDetails := none } }).1.loadViewTo
      = some { repo := "repo-a", commitDetails := none } ∧
    (getHtmlForWebview okBackend
        { initialViewState with
            loadViewTo := some { repo := "repo-a", commitDetails := none } }).2.loadViewTo
      = none :=
  ⟨(loadViewTo_consumed_once okBackend
      { initialViewState with loadViewTo := some { repo := "repo-a", commitDetails := none } }).1,
   (loadViewTo_consumed_once okBackend
      { initialViewState with loadViewTo := some { repo := "repo-a", commitDetails := none } }).2.1⟩

/-- Claim C10: after every execution of the render algorithm the
isGraphViewLoaded flag equals whether the known repo set is non-empty, even when
the git-executable-unavailable error surface was rendered instead of the
interactive shell (the flag assignment is unconditional), and a repo-set-change
event received while visible triggers a full re-render exactly when the event
repo count crosses the empty/non-empty boundary relative to that flag — the
classification is by repo count against the flag, not by which surface is
displayed. -/
theorem isGraphViewLoaded_tracks_repo_count (b : Backend) (s : ViewState) :
    ((getHtmlForWebview b s).2.isGraphViewLoaded = decide (0 < b.getRepos.length)) ∧
    (b.isGitExecutableUnknown = true →
      (getHtmlForWebview b s).1.bodyKind = BodyKind.unableToFindGit ∧
      (getHtmlForWebview b s).2.isGraphViewLoaded = decide (0 < b.getRepos.length)) ∧
    (∀ event : RepoChangeEvent, s.isPanelVisible = true →
      ((∃ r, (onDidChangeRepos b s event).2 = [Effect.rerender r]) ↔
        ((event.numRepos = 0 ∧ s.isGraphViewLoaded = true) ∨
          (0 < event.numRepos ∧ s.isGraphViewLoaded = false)))) := by
  refine ⟨rfl, fun hg => ⟨?_, rfl⟩, fun event hvis => ?_⟩
  · simp [getHtmlForWebview, hg]
  · rcases Nat.eq_zero_or_pos event.numRepos with h0 | h0
    · rcases hL : s.isGraphViewLoaded with _ | _ <;>
        simp [onDidChangeRepos, hvis, hL, h0, respondLoadRepos]
    · rcases hL : s.isGraphViewLoaded with _ | _ <;>
        simp [onDidChangeRepos, hvis, hL, h0, h0.ne', respondLoadRepos]

/-- Witness for claim C10: with git unavailable and one known repository, the
render emits the fixed error surface yet still sets the loaded flag to true,
and from that flag an event reporting zero repos classifies as a boundary
crossing. -/
theorem isGraphViewLoaded_tracks_repo_count_witness :
    ((getHtmlForWebview { okBackend with isGitExecutableUnknown := true }
        initialViewState).1.bodyKind = BodyKind.unableToFindGit ∧
      (getHtmlForWebview { okBackend with isGitExecutableUnknown := true }
        initialViewState).2.isGraphViewLoaded
        = decide (0 < ({ okBackend with isGitExecutableUnknown := true } : Backend).getRepos.length)) ∧
    (∃ r, (onDidChangeRepos okBackend { initialViewState with isGraphViewLoaded := true }
        { repos := [], numRepos := 0, loadRepo := none }).2 = [Effect.rerender r]) :=
  ⟨(isGraphViewLoaded_tracks_repo_count { okBackend with isGitExecutableUnknown := true }
      initialViewState).2.1 rfl,
   ((isGraphViewLoaded_tracks_repo_count okBackend { initialViewState with isGraphViewLoaded := true }).2.2
      { repos := [], numRepos := 0, loadRepo := none } rfl).mpr (Or.inl ⟨rfl, rfl⟩)⟩

end GitGraph
